import Mathlib

/-!
Verification of the MyBudget transaction classification and aggregation pipeline

Shallow embedding of the core of the MyBudget repository
(`budget_analysis.py`, `collate_all_periods.py`, `collate_periods.py`):
the categorizer (`categorize_tx`), the period aggregator's ratio metrics
(`write_reports`), the series accumulator's summary-file append
(`write_reports` / `summarize_all_periods`), the derived net-worth column
(`summarize_all_periods`), and the parser's column-block selection
(`read_tx_file`).

Amounts are modelled as exact rationals (`ℚ`).  The Python code computes
with IEEE doubles (numpy/pandas); the only places where float semantics are
observable in the verified properties are division by zero and the infinity
and NaN values it produces, which are modelled explicitly by `FloatVal` and
`npDiv` below.  pandas DataFrames are modelled as lists of rows together
with an explicit list of column names, so that selecting a missing column
can fail (pandas `KeyError`) exactly where the Python code would raise.
-/

namespace MyBudget

/-- Result value of a floating-point computation that can leave the finite
range: a finite rational, `+inf`, `-inf`, or NaN.  Used to model the values
numpy produces for `x / 0.0` and the `-np.inf` sentinel the aggregators
assign. -/
inductive FloatVal where
  | finite (q : ℚ)
  | posInf
  | negInf
  | nan
  deriving DecidableEq, Repr

/-- numpy float division `a / b` on exactly-represented inputs: a finite
quotient when `b ≠ 0`; when `b = 0`, numpy yields `inf` for positive `a`,
`-inf` for negative `a`, and NaN for `0.0 / 0.0` (emitting only a runtime
warning, not an exception). -/
def npDiv (a b : ℚ) : FloatVal :=
  if b = 0 then
    if 0 < a then FloatVal.posInf
    else if a < 0 then FloatVal.negInf
    else FloatVal.nan
  else FloatVal.finite (a / b)

/-- Errors raised by the pandas layer: `KeyError` on selecting a column
that the frame does not have.  The spec's error taxonomy calls this error
`SchemaError` when a record set lacks a required column and
`StructureError` when the raw export header lacks a duplicated column
block; in the code both are the same pandas `KeyError`. -/
inductive PdError where
  | keyError (col : String)
  deriving DecidableEq, Repr

/-- A record set (pandas DataFrame restricted to the two relevant columns):
the list of column names actually present, and the rows as
(category, amount) pairs.  A frame whose `cols` lack `"Category"` models
e.g. `pd.DataFrame()` from the unit test. -/
structure Frame where
  cols : List String
  rows : List (String × ℚ)
  deriving DecidableEq, Repr

/-- pandas `DataFrame.groupby(cat).aggregate(np.sum)`: per-category totals.
Each distinct category appears exactly once, with the sum of all its rows'
amounts.  (pandas returns the groups sorted by key; this model lists them
in first-seen order, which is irrelevant to the summation, percentage and
error properties proved below.) -/
def groupSum : List (String × ℚ) → List (String × ℚ)
  | [] => []
  | (c, a) :: rest =>
      (c, a + ((rest.filter (fun r => r.1 == c)).map Prod.snd).sum)
        :: groupSum (rest.filter (fun r => r.1 != c))
termination_by l => l.length
decreasing_by
  simp_wf
  exact Nat.lt_succ_of_le (List.length_filter_le _ _)

/-- Output of the categorizer: per-category totals (the summed `Amount`
column) and the derived `Contribution [%]` column. -/
structure Grouped where
  totals : List (String × ℚ)
  contrib : List (String × FloatVal)
  deriving DecidableEq, Repr

/-- Model of `categorize_tx` (identical in `budget_analysis.py` lines 61-75 and
`collate_all_periods.py` lines 70-84 up to the default amount-column name):
group the transactions by the category column and sum them, then set
`grouped['Contribution [%]'] = 100 * grouped[amt] / np.abs(np.sum(tx[amt]))`.
Looking up a column the frame does not have raises `KeyError`
(the category column first, at `groupby`). -/
def categorize_tx (f : Frame) (catCol : String) (amtCol : String) :
    Except PdError Grouped :=
  if catCol ∈ f.cols then
    if amtCol ∈ f.cols then
      let g := groupSum f.rows
      let T := (f.rows.map Prod.snd).sum
      Except.ok ⟨g, g.map (fun p => (p.1, npDiv (100 * p.2) |T|))⟩
    else Except.error (PdError.keyError amtCol)
  else Except.error (PdError.keyError catCol)

/-- The contribution column the categorizer reports for a frame (the empty
list when the categorizer fails). -/
def contribsOf (f : Frame) : List (String × FloatVal) :=
  match categorize_tx f "Category" "Amount" with
  | Except.ok g => g.contrib
  | Except.error _ => []

/-- Sum of the finite values in a contribution column (all contributions
are finite whenever the class total is nonzero). -/
def finiteSum (l : List (String × FloatVal)) : ℚ :=
  (l.map (fun p => match p.2 with | FloatVal.finite q => q | _ => 0)).sum

/-- Sum of the absolute values of the finite values in a contribution
column. -/
def finiteAbsSum (l : List (String × FloatVal)) : ℚ :=
  (l.map (fun p => match p.2 with | FloatVal.finite q => |q| | _ => 0)).sum

/-!
Period aggregator ratio metrics.

`write_reports` in `collate_all_periods.py` (lines 110-127) and
`summarize_all_periods` in `collate_periods.py` (lines 37-54) contain the
same two guarded ratio computations; `write_reports` in
`budget_analysis.py` (lines 96-104) contains an unguarded variant.
Each is modelled as a pair (warning emitted?, value). -/

/-- Savings percentage in `collate_all_periods.write_reports` and
`collate_periods.summarize_all_periods`:
`if tot_inc < 0: warn; sav_pct = -np.inf else: sav_pct = 100.0 * net_sav / tot_inc`.
First component: whether `warnings.warn` was called. -/
def collate_sav_pct (net_sav tot_inc : ℚ) : Bool × FloatVal :=
  if tot_inc < 0 then (true, FloatVal.negInf)
  else (false, npDiv (100 * net_sav) tot_inc)

/-- Savings utilization ratio in `collate_all_periods.write_reports` and
`collate_periods.summarize_all_periods`:
`if net_sav < 0: warn; sav_util = -np.inf else: sav_util = 100.0 * tot_sav / net_sav`. -/
def collate_sav_util (tot_sav net_sav : ℚ) : Bool × FloatVal :=
  if net_sav < 0 then (true, FloatVal.negInf)
  else (false, npDiv (100 * tot_sav) net_sav)

/-- Savings percentage in `budget_analysis.write_reports`: a warning is
emitted when `tot_inc < 0`, but `sav_pct = 100.0 * savings / tot_inc` is
computed unconditionally — no sentinel value is ever assigned. -/
def budget_sav_pct (savings tot_inc : ℚ) : Bool × FloatVal :=
  (decide (tot_inc < 0), npDiv (100 * savings) tot_inc)

/-!
Series accumulator: summary-file append.

Both `write_reports` functions end with
```text
if not os.path.exists(a_summary_file):
    with open(a_summary_file,'w') as sf: sf.write(<header line>)
with open(a_summary_file,'a') as sf: sf.write(<data row>)
```
(`budget_analysis.py` lines 126-135, `collate_all_periods.py` lines
145-156).  The file is modelled as `Option (List String)` — `none` when
the file does not exist, `some lines` otherwise. -/

/-- Header line written by `budget_analysis.write_reports` on first
creation of the summary file. -/
def budget_header : String :=
  "Time Period,Income [$],Expenses [$],Savings [$],Net Worth [$],pct-savings [%]"

/-- Header line written by `collate_all_periods.write_reports` on first
creation of the summary file (the misspelling `Unutilzed` is the
source's). -/
def collate_header : String :=
  "Time period,Income [$],Expenses [$],Utilized savings [$],Unutilzed savings [$],pct-savings [%],Savings utilization ratio [%]"

/-- The summary-file effect of one `write_reports` call: if the file is
absent it is first created holding only the header line, then the one
data row is appended; if present, the one data row is appended to the
existing lines unchanged. -/
def appendSummaryRow (header : String) (file : Option (List String))
    (row : String) : List String :=
  match file with
  | none => [header, row]
  | some lines => lines ++ [row]

/-!
Derived net-worth column (in `collate_periods.summarize_all_periods`). -/

/-- pandas `Series.cumsum`: running cumulative sums. -/
def cumsum : List ℚ → List ℚ
  | [] => []
  | x :: xs => x :: (cumsum xs).map (fun y => x + y)

/-- The derived column
`a_initial_net_worth + summary_df[inc].cumsum() - summary_df[exp].cumsum()`
(`collate_periods.py` lines 60-63). -/
def netWorthCol (init : ℚ) (inc exp : List ℚ) : List ℚ :=
  List.zipWith (fun i e => init + i - e) (cumsum inc) (cumsum exp)

/-- The summary DataFrame read back from the summary file: the scalar
columns `summarize_all_periods` uses, plus the derived net-worth column
(`none` until it is computed). -/
structure SummaryDF where
  periods : List String
  inc : List ℚ
  exp : List ℚ
  sav : List ℚ
  netWorth : Option (List ℚ)
  deriving DecidableEq, Repr

/-- The in-memory effect of `summarize_all_periods` on the DataFrame: the
statement `summary_df["Net worth [$]"] = a_initial_net_worth + ... cumsum ...`
(re)computes the derived column from the income and expense columns,
overwriting any previous value. -/
def addNetWorthCol (init : ℚ) (df : SummaryDF) : SummaryDF :=
  { df with netWorth := some (netWorthCol init df.inc df.exp) }

/-!
Parser: column-block selection in `read_tx_file`.

`pd.read_csv` mangles repeated header names by appending `.1`, `.2`, … to
the duplicates.  `read_tx_file` then slices the raw frame by selecting the
base column pair and the duplicate-suffixed pairs; selecting names the
header does not have raises a pandas `KeyError`.  The raw export is
modelled after `pd.read_csv`: a list of (mangled) column names and rows of
cells positioned under them.  The later currency-stripping and
`pd.to_numeric` conversion steps are not modelled — no claim depends on
them, and the structural error under verification occurs at selection. -/

/-- One cell of the raw export: blank (NaN after `read_csv`), a text cell,
or a numeric cell. -/
inductive Cell where
  | blank
  | str (s : String)
  | num (q : ℚ)
  deriving DecidableEq, BEq, Repr

/-- The raw DataFrame produced by `pd.read_csv` on the export: mangled
column names and rows of cells aligned positionally with them. -/
structure RawFrame where
  cols : List String
  rows : List (List Cell)
  deriving DecidableEq, Repr

/-- `raw_df[[c1, c2]]`: select a category/amount column pair, raising
`KeyError` when a requested name is not in the header. -/
def selectPair (raw : RawFrame) (c1 c2 : String) :
    Except PdError (List (Cell × Cell)) :=
  match raw.cols.indexOf? c1, raw.cols.indexOf? c2 with
  | some i, some j =>
      Except.ok (raw.rows.map (fun r => (r.getD i Cell.blank, r.getD j Cell.blank)))
  | none, _ => Except.error (PdError.keyError c1)
  | some _, none => Except.error (PdError.keyError c2)

/-- `DataFrame.dropna()` on a selected pair: drop every row with a blank
in either column. -/
def dropna (rows : List (Cell × Cell)) : List (Cell × Cell) :=
  rows.filter (fun p => !(p.1 == Cell.blank) && !(p.2 == Cell.blank))

/-- Column-block structure of `read_tx_file` in `collate_all_periods.py`
(lines 40-52): select the expense block (base names), the income block
(`.1` suffix) and the savings block (`.2` suffix), dropping blank rows in
each; returns (income, expenses, savings). -/
def read_tx_file_collate (raw : RawFrame) :
    Except PdError (List (Cell × Cell) × List (Cell × Cell) × List (Cell × Cell)) := do
  let expenses ← selectPair raw "Category" "Amount"
  let income ← selectPair raw "Category.1" "Amount.1"
  let savings ← selectPair raw "Category.2" "Amount.2"
  Except.ok (dropna income, dropna expenses, dropna savings)

/-- Column-block structure of `read_tx_file` in `budget_analysis.py`
(lines 36-48): the base-name block and the `.1` block are the expense
and income blocks in the order given by `a_ord`; returns
(expenses, income). -/
def read_tx_file_budget (raw : RawFrame) (a_ord : Bool) :
    Except PdError (List (Cell × Cell) × List (Cell × Cell)) := do
  if a_ord then
    let expenses ← selectPair raw "Category" "Amount"
    let income ← selectPair raw "Category.1" "Amount.1"
    Except.ok (dropna expenses, dropna income)
  else
    let income ← selectPair raw "Category" "Amount"
    let expenses ← selectPair raw "Category.1" "Amount.1"
    Except.ok (dropna expenses, dropna income)

/-!
Year-to-date summarizer: file side effect of `summarize_all_periods`
(`collate_periods.py` lines 55-59).  Each invocation reads the summary
file, computes year-to-date totals over all data rows (`read_csv` skips
blank lines, so previously appended Total rows are read back as data),
and appends `"\nTotal,..."` — a blank line followed by one Total data
row — before computing the derived net-worth column. -/

/-- One data row of the summary file, in its column order; the two ratio
columns can hold the `-inf` sentinel, so they are `FloatVal`. -/
structure SRow where
  label : String
  inc : ℚ
  exp : ℚ
  sav : ℚ
  xtra : ℚ
  pct : FloatVal
  util : FloatVal
  deriving DecidableEq, Repr

/-- One line of the summary file body (below the header): blank or a data
row. -/
inductive SLine where
  | blank
  | row (r : SRow)
  deriving DecidableEq, Repr

/-- The data rows `pd.read_csv` yields from the file body: blank lines are
skipped (the default `skip_blank_lines=True`). -/
def dataRows (f : List SLine) : List SRow :=
  f.filterMap (fun l => match l with | SLine.blank => none | SLine.row r => some r)

/-- The Total row `summarize_all_periods` computes: column sums of income,
expenses and utilized savings over all data rows, the derived net and
extra savings, and the two guarded ratio metrics. -/
def totalRow (rs : List SRow) : SRow :=
  let ti := (rs.map SRow.inc).sum
  let te := (rs.map SRow.exp).sum
  let ts := (rs.map SRow.sav).sum
  let ns := ti - te
  ⟨"Total", ti, te, ts, ns - ts, (collate_sav_pct ns ti).2, (collate_sav_util ts ns).2⟩

/-- The summary-file effect of one `summarize_all_periods` invocation:
`sf.write("\nTotal,...")` appends a blank line and then the Total row to
the existing body. -/
def summarize_step (f : List SLine) : List SLine :=
  f ++ [SLine.blank, SLine.row (totalRow (dataRows f))]

/-- Number of Total-labelled data rows in the summary file body. -/
def countTotalRows (f : List SLine) : Nat :=
  (dataRows f).countP (fun r => r.label == "Total")

/-!
Helper lemmas. -/

/-- Splitting a sum of mapped values along a Boolean filter. -/
lemma sum_map_filter_split {α : Type} (p : α → Bool) (v : α → ℚ) (l : List α) :
    ((l.filter p).map v).sum + ((l.filter (fun a => !p a)).map v).sum
      = (l.map v).sum := by
  induction l with
  | nil => simp
  | cons a l ih =>
      cases h : p a
      · simp [List.filter_cons, h]
        rw [← ih]
        ring
      · simp [List.filter_cons, h]
        rw [← ih]
        ring

/-- Grouping preserves the total: the per-category totals of `groupSum`
sum to the sum of all raw amounts. -/
lemma groupSum_sum (rows : List (String × ℚ)) :
    ((groupSum rows).map Prod.snd).sum = (rows.map Prod.snd).sum := by
  induction rows using groupSum.induct with
  | case1 => simp [groupSum]
  | case2 c a rest ih =>
      rw [groupSum]
      have hsplit := sum_map_filter_split (fun r => r.1 == c) Prod.snd rest
      simp only [List.map_cons, List.sum_cons, ih]
      have hne : (fun r : String × ℚ => r.1 != c) = fun r => !(r.1 == c) := by
        funext r
        simp [bne]
      rw [hne]
      rw [← hsplit]
      ring

/-- A column name absent from a frame has no index. -/
lemma indexOf?_eq_none_of_not_mem {a : String} {l : List String} (h : a ∉ l) :
    l.indexOf? a = none := by
  rw [List.indexOf?_eq_none_iff]
  intro x hx
  simp only [beq_iff_eq]
  exact fun hxa => h (hxa ▸ hx)

/-- Selecting a column pair with a missing name fails with `KeyError`. -/
lemma selectPair_error (raw : RawFrame) (c1 c2 : String)
    (h : c1 ∉ raw.cols ∨ c2 ∉ raw.cols) :
    ∃ c, selectPair raw c1 c2 = Except.error (PdError.keyError c) := by
  unfold selectPair
  rcases h with h | h
  · rw [indexOf?_eq_none_of_not_mem h]
    exact ⟨c1, rfl⟩
  · rw [indexOf?_eq_none_of_not_mem h]
    cases raw.cols.indexOf? c1 with
    | none => exact ⟨c1, rfl⟩
    | some i => exact ⟨c2, rfl⟩

/-- One `summarize_all_periods` invocation adds exactly one Total row. -/
lemma countTotalRows_step (f : List SLine) :
    countTotalRows (summarize_step f) = countTotalRows f + 1 := by
  simp [summarize_step, countTotalRows, dataRows, List.filterMap_append,
    List.countP_append, totalRow, List.countP_cons]

/-!
Claim theorems. -/

/-- C2: for every record set with the category and amount columns, the
categorizer succeeds and its per-category totals sum to the sum of the
record set's raw amounts. -/
theorem claim_C2 (f : Frame) (catCol amtCol : String)
    (h1 : catCol ∈ f.cols) (h2 : amtCol ∈ f.cols) :
    ∃ g, categorize_tx f catCol amtCol = Except.ok g ∧
      (g.totals.map Prod.snd).sum = (f.rows.map Prod.snd).sum := by
  unfold categorize_tx
  rw [if_pos h1, if_pos h2]
  exact ⟨_, rfl, groupSum_sum f.rows⟩

/-- Witness for C2 at the concrete record set from the repository's unit
test data. -/
theorem claim_C2_witness :
    ∃ g, categorize_tx
        ⟨["Category", "Amount"],
          [("Utilities", 100), ("Gifts", 5007), ("Utilities", 350),
            ("Transportation", 3)]⟩ "Category" "Amount" = Except.ok g ∧
      (g.totals.map Prod.snd).sum
        = (([("Utilities", (100:ℚ)), ("Gifts", 5007), ("Utilities", 350),
            ("Transportation", 3)]).map Prod.snd).sum :=
  claim_C2 _ "Category" "Amount" (by decide) (by decide)

/-- C3: the first write to an absent summary file creates it with the fixed
header line followed by the first data row; every write to a present file
appends exactly the one data row; writing the same row twice from the
absent state leaves two data rows. -/
theorem claim_C3 (r r2 : String) (lines : List String) :
    appendSummaryRow budget_header none r = [budget_header, r] ∧
    appendSummaryRow collate_header none r = [collate_header, r] ∧
    appendSummaryRow budget_header (some lines) r2 = lines ++ [r2] ∧
    appendSummaryRow collate_header (some lines) r2 = lines ++ [r2] ∧
    appendSummaryRow budget_header
      (some (appendSummaryRow budget_header none r)) r = [budget_header, r, r] ∧
    appendSummaryRow collate_header
      (some (appendSummaryRow collate_header none r)) r = [collate_header, r, r] := by
  simp [appendSummaryRow]

/-- C4: a record set lacking the category column makes the categorizer fail
with the column-missing error (pandas `KeyError`, the spec's SchemaError)
rather than return an empty result. -/
theorem claim_C4 (f : Frame) (amtCol : String) (h : "Category" ∉ f.cols) :
    categorize_tx f "Category" amtCol
      = Except.error (PdError.keyError "Category") := by
  unfold categorize_tx
  rw [if_neg h]

/-- Witness for C4 at the empty DataFrame used by the repository's unit
test. -/
theorem claim_C4_witness :
    categorize_tx ⟨[], []⟩ "Category" "Amount"
      = Except.error (PdError.keyError "Category") :=
  claim_C4 ⟨[], []⟩ "Amount" (by decide)

/-- C8: recomputing the derived net-worth column any positive number of
times from the same series yields the same result as computing it once. -/
theorem claim_C8 (init : ℚ) (df : SummaryDF) (n : ℕ) :
    (addNetWorthCol init)^[n + 1] df = addNetWorthCol init df := by
  induction n with
  | zero => simp
  | succ n ih =>
      rw [Function.iterate_succ_apply', ih]
      simp [addNetWorthCol]

/-- C10: each `summarize_all_periods` invocation appends a blank line and
one Total row to the summary file, so n invocations add exactly n Total
rows, and the file is changed by every invocation (the recompute is not
read-only). -/
theorem claim_C10 (f : List SLine) (n : ℕ) :
    summarize_step f = f ++ [SLine.blank, SLine.row (totalRow (dataRows f))] ∧
    countTotalRows (summarize_step^[n] f) = countTotalRows f + n ∧
    summarize_step f ≠ f := by
  refine ⟨rfl, ?_, ?_⟩
  · induction n with
    | zero => simp
    | succ n ih =>
        rw [Function.iterate_succ_apply', countTotalRows_step, ih]
        ring
  · intro h
    have hlen := congrArg List.length h
    simp [summarize_step] at hlen

/-- C1 counterexample: at total income exactly zero — a non-positive
denominator — the year-to-date/collate aggregator takes the unguarded
branch: no warning is emitted and the metric is the result of the float
division by zero (`+inf` here), not the `-inf` sentinel; likewise for the
utilization ratio at net savings exactly zero. -/
theorem claim_C1_counterexample :
    ((0:ℚ) ≤ 0) ∧
    collate_sav_pct 5 0 = (false, FloatVal.posInf) ∧
    collate_sav_util 3 0 = (false, FloatVal.posInf) ∧
    (false, FloatVal.posInf) ≠ (true, FloatVal.negInf) := by
  refine ⟨le_refl 0, ?_, ?_, by simp⟩
  · simp [collate_sav_pct, npDiv]
  · simp [collate_sav_util, npDiv]

/-- C1 amended: the warning plus `-inf` sentinel is produced exactly when
the denominator is strictly negative (not merely non-positive) in
`collate_all_periods.write_reports` and
`collate_periods.summarize_all_periods`; at a non-negative denominator no
warning is emitted and the division is performed unguarded; and
`budget_analysis.write_reports` warns on negative income but always
performs the division, never substituting the sentinel. -/
theorem claim_C1_amended
    (ns ti ts s : ℚ) :
    (ti < 0 → collate_sav_pct ns ti = (true, FloatVal.negInf)) ∧
    (ns < 0 → collate_sav_util ts ns = (true, FloatVal.negInf)) ∧
    (0 ≤ ti → collate_sav_pct ns ti = (false, npDiv (100 * ns) ti)) ∧
    (0 ≤ ns → collate_sav_util ts ns = (false, npDiv (100 * ts) ns)) ∧
    (ti < 0 → budget_sav_pct s ti = (true, FloatVal.finite (100 * s / ti))) := by
  refine ⟨?_, ?_, ?_, ?_, ?_⟩
  · intro h
    simp [collate_sav_pct, h]
  · intro h
    simp [collate_sav_util, h]
  · intro h
    simp [collate_sav_pct, not_lt.mpr h]
  · intro h
    simp [collate_sav_util, not_lt.mpr h]
  · intro h
    simp [budget_sav_pct, h, npDiv, ne_of_lt h]

/-- Witness for the amended C1 at concrete denominators. -/
theorem claim_C1_amended_witness :
    collate_sav_pct 5 (-2) = (true, FloatVal.negInf) ∧
    collate_sav_util 3 (-4) = (true, FloatVal.negInf) ∧
    collate_sav_pct 5 0 = (false, npDiv (100 * 5) 0) ∧
    collate_sav_util 3 0 = (false, npDiv (100 * 3) 0) ∧
    budget_sav_pct 6 (-2) = (true, FloatVal.finite (100 * 6 / (-2))) :=
  ⟨(claim_C1_amended 5 (-2) 3 6).1 (by norm_num),
   (claim_C1_amended (-4) 0 3 6).2.1 (by norm_num),
   (claim_C1_amended 5 0 3 6).2.2.1 (by norm_num),
   (claim_C1_amended 0 0 3 6).2.2.2.1 (by norm_num),
   (claim_C1_amended 5 (-2) 3 6).2.2.2.2 (by norm_num)⟩

/-- C6 counterexample: a record set with mixed-sign category totals
(+10 for A, -5 for B) has nonzero class total 5, but the absolute values
of its percentage contributions (|200| and |-100|) sum to 300, not 100. -/
theorem claim_C6_counterexample :
    ((Frame.mk ["Category", "Amount"] [("A", 10), ("B", -5)]).rows.map
        Prod.snd).sum ≠ 0 ∧
    contribsOf ⟨["Category", "Amount"], [("A", 10), ("B", -5)]⟩
      = [("A", FloatVal.finite 200), ("B", FloatVal.finite (-100))] ∧
    finiteAbsSum (contribsOf ⟨["Category", "Amount"], [("A", 10), ("B", -5)]⟩)
      = 300 ∧
    finiteAbsSum (contribsOf ⟨["Category", "Amount"], [("A", 10), ("B", -5)]⟩)
      ≠ 100 := by
  have h : contribsOf ⟨["Category", "Amount"], [("A", 10), ("B", -5)]⟩
      = [("A", FloatVal.finite 200), ("B", FloatVal.finite (-100))] := by
    simp [contribsOf, categorize_tx, groupSum, npDiv]
    norm_num
  refine ⟨by norm_num, h, ?_, ?_⟩
  · rw [h]
    norm_num [finiteAbsSum]
  · rw [h]
    norm_num [finiteAbsSum]

/-- C6 amended: for every record set with the two columns and nonzero
class total, every percentage contribution is finite and the contributions
sum to a value of absolute value 100 (exactly +100 for a positive class
total, -100 for a negative one); their absolute values need not sum
to 100 when category totals have mixed signs. -/
theorem claim_C6_amended (f : Frame) (catCol amtCol : String)
    (h1 : catCol ∈ f.cols) (h2 : amtCol ∈ f.cols)
    (hT : (f.rows.map Prod.snd).sum ≠ 0) :
    ∃ g, categorize_tx f catCol amtCol = Except.ok g ∧
      (∀ p ∈ g.contrib, ∃ q : ℚ, p.2 = FloatVal.finite q) ∧
      |finiteSum g.contrib| = 100 := by
  unfold categorize_tx
  rw [if_pos h1, if_pos h2]
  have habs : |(f.rows.map Prod.snd).sum| ≠ 0 := abs_ne_zero.mpr hT
  refine ⟨_, rfl, ?_, ?_⟩
  · intro p hp
    simp only [List.mem_map] at hp
    obtain ⟨q, hq, rfl⟩ := hp
    refine ⟨100 * q.2 / |(f.rows.map Prod.snd).sum|, ?_⟩
    simp [npDiv, habs]
  · have hfun : ((fun p : String × FloatVal =>
          match p.2 with | FloatVal.finite q => q | _ => 0) ∘
        (fun p : String × ℚ =>
          (p.1, npDiv (100 * p.2) |(f.rows.map Prod.snd).sum|)))
        = fun p : String × ℚ => p.2 * (100 / |(f.rows.map Prod.snd).sum|) := by
      funext p
      simp only [Function.comp_apply, npDiv, if_neg habs]
      ring
    rw [finiteSum, List.map_map, hfun, List.sum_map_mul_right, groupSum_sum]
    rw [abs_mul, abs_of_nonneg (show (0:ℚ) ≤ 100 / |(f.rows.map Prod.snd).sum|
      by positivity)]
    field_simp

/-- Witness for the amended C6 at a concrete mixed-sign record set with
class total 5. -/
theorem claim_C6_amended_witness :
    ∃ g, categorize_tx ⟨["Category", "Amount"], [("A", 10), ("B", -5)]⟩
        "Category" "Amount" = Except.ok g ∧
      (∀ p ∈ g.contrib, ∃ q : ℚ, p.2 = FloatVal.finite q) ∧
      |finiteSum g.contrib| = 100 :=
  claim_C6_amended ⟨["Category", "Amount"], [("A", 10), ("B", -5)]⟩
    "Category" "Amount" (by decide) (by decide) (by norm_num)

/-- C7 counterexample: the record set {A: +5, B: -5} has amounts summing
to zero, yet the categorizer reports contribution `+inf` for A and `-inf`
for B — the unguarded float division by zero — not NaN for each
category. -/
theorem claim_C7_counterexample :
    ((Frame.mk ["Category", "Amount"] [("A", 5), ("B", -5)]).rows.map
        Prod.snd).sum = 0 ∧
    contribsOf ⟨["Category", "Amount"], [("A", 5), ("B", -5)]⟩
      = [("A", FloatVal.posInf), ("B", FloatVal.negInf)] ∧
    FloatVal.posInf ≠ FloatVal.nan := by
  refine ⟨by norm_num, ?_, by simp⟩
  simp [contribsOf, categorize_tx, groupSum, npDiv]

/-- C7 amended: for a record set whose amounts sum to zero, the
contribution column is the unguarded float division by zero applied to
each category total: NaN exactly for the categories whose own total is
zero, and `+inf`/`-inf` for positive/negative category totals. -/
theorem claim_C7_amended (f : Frame) (catCol amtCol : String)
    (h1 : catCol ∈ f.cols) (h2 : amtCol ∈ f.cols)
    (hT : (f.rows.map Prod.snd).sum = 0) :
    ∃ g, categorize_tx f catCol amtCol = Except.ok g ∧
      g.contrib = g.totals.map (fun p =>
        (p.1, if 0 < p.2 then FloatVal.posInf
              else if p.2 < 0 then FloatVal.negInf else FloatVal.nan)) := by
  unfold categorize_tx
  rw [if_pos h1, if_pos h2]
  refine ⟨_, rfl, ?_⟩
  simp only [hT, abs_zero]
  congr 1
  funext p
  have hdiv : npDiv (100 * p.2) 0
      = if 0 < p.2 then FloatVal.posInf
        else if p.2 < 0 then FloatVal.negInf else FloatVal.nan := by
    by_cases hp : 0 < p.2
    · have h100 : 0 < 100 * p.2 := by positivity
      simp [npDiv, hp, h100]
    · by_cases hn : p.2 < 0
      · have h100 : 100 * p.2 < 0 := mul_neg_of_pos_of_neg (by norm_num) hn
        simp [npDiv, hp, hn, h100, not_lt.mpr (le_of_lt h100)]
      · have hz : p.2 = 0 := le_antisymm (not_lt.mp hp) (not_lt.mp hn)
        simp [npDiv, hz]
  rw [hdiv]

/-- Witness for the amended C7 at the concrete zero-sum record set
{A: +5, B: -5}. -/
theorem claim_C7_amended_witness :
    ∃ g, categorize_tx ⟨["Category", "Amount"], [("A", 5), ("B", -5)]⟩
        "Category" "Amount" = Except.ok g ∧
      g.contrib = g.totals.map (fun p =>
        (p.1, if 0 < p.2 then FloatVal.posInf
              else if p.2 < 0 then FloatVal.negInf else FloatVal.nan)) :=
  claim_C7_amended ⟨["Category", "Amount"], [("A", 5), ("B", -5)]⟩
    "Category" "Amount" (by decide) (by decide) (by norm_num)

/-- Unfolding the derived net-worth column one row at a time. -/
lemma netWorthCol_cons (init a b : ℚ) (as bs : List ℚ) :
    netWorthCol init (a :: as) (b :: bs) =
      (init + a - b) :: netWorthCol (init + a - b) as bs := by
  simp only [netWorthCol, cumsum, List.zipWith_cons_cons, List.zipWith_map]
  congr 1
  have h : (fun (x y : ℚ) => init + (a + x) - (b + y))
       = fun (x y : ℚ) => (init + a - b) + x - y := by
    funext x y
    ring
  rw [h]

/-- C5: for every summary series, row k of the derived net-worth column
equals the initial net worth plus the cumulative income over rows 1..k+1
minus the cumulative expenses over rows 1..k+1 (rows indexed from 0). -/
theorem claim_C5 (init : ℚ) (inc exp : List ℚ) :
    netWorthCol init inc exp =
      (List.range (min inc.length exp.length)).map
        (fun k => init + (inc.take (k + 1)).sum - (exp.take (k + 1)).sum) := by
  induction inc generalizing init exp with
  | nil => simp [netWorthCol, cumsum]
  | cons a as ih =>
      cases exp with
      | nil => simp [netWorthCol, cumsum]
      | cons b bs =>
          rw [netWorthCol_cons, ih]
          rw [List.length_cons, List.length_cons, Nat.succ_min_succ,
            List.range_succ_eq_map]
          simp only [List.map_cons, List.map_map]
          congr 1
          · simp
          · apply List.map_congr_left
            intro k hk
            simp only [Function.comp_apply, Nat.succ_eq_add_one,
              List.take_succ_cons, List.sum_cons]
            ring

/-- Every pandas-layer error is a `KeyError` on some column. -/
lemma pdError_exists (e : PdError) : ∃ c, e = PdError.keyError c := by
  cases e
  exact ⟨_, rfl⟩

/-- C9: an export whose mangled header lacks a duplicate-suffixed
category/amount block makes the parser fail with the column-missing error
(pandas `KeyError`, the spec's StructureError): a missing `.1` block fails
both parsers, a missing `.2` block fails the three-block parser. -/
theorem claim_C9 (raw : RawFrame) :
    ("Category.1" ∉ raw.cols ∨ "Amount.1" ∉ raw.cols →
      (∃ c, read_tx_file_collate raw = Except.error (PdError.keyError c)) ∧
      (∀ b, ∃ c, read_tx_file_budget raw b
        = Except.error (PdError.keyError c))) ∧
    ("Category.2" ∉ raw.cols ∨ "Amount.2" ∉ raw.cols →
      ∃ c, read_tx_file_collate raw = Except.error (PdError.keyError c)) := by
  constructor
  · intro h
    constructor
    · cases hA : selectPair raw "Category" "Amount" with
      | error e =>
          obtain ⟨c, rfl⟩ := pdError_exists e
          exact ⟨c, by simp [read_tx_file_collate, hA, Bind.bind, Except.bind]⟩
      | ok v =>
          obtain ⟨c, hB⟩ := selectPair_error raw "Category.1" "Amount.1" h
          exact ⟨c, by simp [read_tx_file_collate, hA, hB, Bind.bind, Except.bind]⟩
    · intro b
      cases hA : selectPair raw "Category" "Amount" with
      | error e =>
          obtain ⟨c, rfl⟩ := pdError_exists e
          exact ⟨c, by cases b <;> simp [read_tx_file_budget, hA, Bind.bind, Except.bind]⟩
      | ok v =>
          obtain ⟨c, hB⟩ := selectPair_error raw "Category.1" "Amount.1" h
          exact ⟨c, by cases b <;> simp [read_tx_file_budget, hA, hB, Bind.bind, Except.bind]⟩
  · intro h
    cases hA : selectPair raw "Category" "Amount" with
    | error e =>
        obtain ⟨c, rfl⟩ := pdError_exists e
        exact ⟨c, by simp [read_tx_file_collate, hA, Bind.bind, Except.bind]⟩
    | ok v =>
        cases hB : selectPair raw "Category.1" "Amount.1" with
        | error e =>
            obtain ⟨c, rfl⟩ := pdError_exists e
            exact ⟨c, by simp [read_tx_file_collate, hA, hB, Bind.bind, Except.bind]⟩
        | ok w =>
            obtain ⟨c, hC⟩ := selectPair_error raw "Category.2" "Amount.2" h
            exact ⟨c, by simp [read_tx_file_collate, hA, hB, hC, Bind.bind, Except.bind]⟩

/-- Witness for C9 at a concrete export header that has only the base
column block and no duplicate-suffixed blocks. -/
theorem claim_C9_witness :
    (∃ c, read_tx_file_collate ⟨["Category", "Amount"], []⟩
      = Except.error (PdError.keyError c)) ∧
    (∀ b, ∃ c, read_tx_file_budget ⟨["Category", "Amount"], []⟩ b
      = Except.error (PdError.keyError c)) :=
  (claim_C9 ⟨["Category", "Amount"], []⟩).1 (Or.inl (by decide))

end MyBudget
